import Mathlib

/-!
Shallow embedding of the pyowm domain value objects under verification:
`NO2Index` (src/pyowm/pollutionapi30/no2index.py) and `MetaImage` /
`SatelliteImage` (src/pyowm/agroapi10/imagery.py).

Python's dynamically typed data (parsed JSON payloads, sample records) is
modelled by the inductive type `PyVal`; Python numbers (ints and floats
merged) are modelled as `Rat`.  Fallible Python code is modelled with
`Except PyErr`, where `PyErr` carries the Python exception class that the
source would raise.  External collaborators that are not part of the
sources under `src/` (the `Location` value object, the time formatting
utilities, the generic dict-to-XML helper) are modelled from the spec and
marked as such in their doc comments.
-/

/-- Python exception classes that the embedded code can raise. -/
inductive PyErr where
  | keyError (key : String)
  | typeError (msg : String)
  | attributeError (msg : String)
  | valueError (msg : String)
  | assertionError (msg : String)
  | indexError (msg : String)
  | parseResponseError (msg : String)
  deriving DecidableEq, Repr

/-- Dynamically typed Python/JSON values: None, booleans, numbers
(ints and floats merged into `Rat`), strings, lists and string-keyed
dictionaries (association lists, in insertion order as Python dicts). -/
inductive PyVal where
  | none
  | bool (b : Bool)
  | num (q : Rat)
  | str (s : String)
  | list (xs : List PyVal)
  | dict (entries : List (String × PyVal))

/-- Python `d[k] = v` on a dict: replaces the value of an existing key in
place (keeping its position), otherwise appends the new pair.  Real Python
dicts have unique keys; on association lists with duplicate keys (states
unreachable from Python) every entry of that key is replaced. -/
def dictSet (d : List (String × PyVal)) (k : String) (v : PyVal) :
    List (String × PyVal) :=
  if (d.lookup k).isSome then
    d.map (fun kv => if kv.1 = k then (k, v) else kv)
  else
    d ++ [(k, v)]

/-- Python `d[k]` with a string literal key, as used by `from_dict`:
a dict lookup (KeyError when absent), a TypeError on lists and strings
(string indices must be integers) and on non-subscriptable values. -/
def pySubscriptStr (v : PyVal) (k : String) : Except PyErr PyVal :=
  match v with
  | .dict entries =>
      match entries.lookup k with
      | some x => .ok x
      | Option.none => .error (.keyError k)
  | .list _ => .error (.typeError "list indices must be integers or slices, not str")
  | .str _ => .error (.typeError "string indices must be integers")
  | _ => .error (.typeError "object is not subscriptable")

/-- Python `v[key]` with a dynamically typed key, as used by the sample
comprehension in `from_dict` (`the_dict['data'][key]`). -/
def pySubscript (v key : PyVal) : Except PyErr PyVal :=
  match v with
  | .dict entries =>
      match key with
      | .str s =>
          match entries.lookup s with
          | some x => .ok x
          | Option.none => .error (.keyError s)
      | .list _ => .error (.typeError "unhashable type: list")
      | .dict _ => .error (.typeError "unhashable type: dict")
      | _ => .error (.keyError "missing")
  | .list xs =>
      match key with
      | .num q =>
          if q.den = 1 then
            let i : Int := if q.num < 0 then q.num + xs.length else q.num
            if h : 0 ≤ i ∧ i.toNat < xs.length then
              .ok (xs.get ⟨i.toNat, h.2⟩)
            else .error (.indexError "list index out of range")
          else .error (.typeError "list indices must be integers or slices, not float")
      | .bool b =>
          let i := if b then 1 else 0
          if h : i < xs.length then .ok (xs.get ⟨i, h⟩)
          else .error (.indexError "list index out of range")
      | .dict _ => .error (.typeError "list indices must be integers or slices, not dict")
      | _ => .error (.typeError "list indices must be integers or slices")
  | _ => .error (.typeError "object is not subscriptable")

/-- Python iteration (`for key in v`): a dict yields its keys, a list its
elements, a string its characters; other values are not iterable. -/
def pyIter (v : PyVal) : Except PyErr (List PyVal) :=
  match v with
  | .dict entries => .ok (entries.map (fun kv => .str kv.1))
  | .list xs => .ok xs
  | .str s => .ok (s.toList.map (fun c => .str (String.mk [c])))
  | _ => .error (.typeError "object is not iterable")

/-- Effectful map over a list in the `Except` monad, written structurally
(models Python list comprehensions and loops that can raise). -/
def mapE (f : α → Except PyErr β) : List α → Except PyErr (List β)
  | [] => .ok []
  | x :: xs =>
    match f x with
    | .error e => .error e
    | .ok y =>
      match mapE f xs with
      | .error e => .error e
      | .ok ys => .ok (y :: ys)

/-- Digits of a natural number: the `k` decimal digit characters of `n`,
most significant first, left-padded with zeros (the low `k` digits of `n`). -/
def padDigits (k n : Nat) : List Char :=
  (List.range k).reverse.map (fun i => Nat.digitChar (n / 10 ^ i % 10))

/-- Fuel-driven decimal digit count (structural recursion so that the
kernel can evaluate it): `numLenAux fuel n` counts the digits of `n`
provided `fuel` bounds the count. -/
def numLenAux : Nat → Nat → Nat
  | 0, _ => 1
  | fuel + 1, n => if n < 10 then 1 else numLenAux fuel (n / 10) + 1

/-- Decimal digit count of a natural number (`1` for `0`). -/
def numLen (n : Nat) : Nat := numLenAux n n

/-- Decimal rendering of a natural number as a character list. -/
def natStr (n : Nat) : List Char := padDigits (numLen n) n

/-- Location value object (external collaborator, `pyowm.weatherapi25.location`).
Modelled from the spec: a simple coordinate+name+id value object
(`name` optional, `longitude`/`latitude` required, `id` and `country`
optional) with its own dict/XML projection. -/
structure Location where
  name : Option String
  lon : Rat
  lat : Rat
  id : Option Int
  country : Option String
  deriving DecidableEq, Repr

/-- Accessor for the longitude of a `Location`. -/
def Location.get_lon (l : Location) : Rat := l.lon

/-- Accessor for the latitude of a `Location`. -/
def Location.get_lat (l : Location) : Rat := l.lat

/-- The NO2Index value object (src/pyowm/pollutionapi30/no2index.py):
reference/reception epochs, an owned `Location`, an interval tag and the
list of NO2 sample records (dynamically typed dicts in the source). -/
structure NO2Index where
  reference_time : Int
  location : Location
  interval : Option String
  no2_samples : List PyVal
  reception_time : Int

/-- Constructor `NO2Index.__init__`: rejects a negative `reference_time`
(ValueError), then requires `no2_samples` to be a list (ValueError), then
rejects a negative `reception_time` (ValueError); on success all fields
are assigned.  Check order follows the source. -/
def NO2Index.init (reference_time : Int) (location : Location)
    (interval : Option String) (no2_samples : PyVal) (reception_time : Int) :
    Except PyErr NO2Index :=
  if reference_time < 0 then
    .error (.valueError "'reference_time' must be greater than 0")
  else
    match no2_samples with
    | .list xs =>
        if reception_time < 0 then
          .error (.valueError "'reception_time' must be greater than 0")
        else
          .ok ⟨reference_time, location, interval, xs, reception_time⟩
    | _ => .error (.valueError "'no2_samples' must be a list")

/-- Accessor `get_location`. -/
def NO2Index.get_location (idx : NO2Index) : Location := idx.location

/-- Accessor `get_interval`. -/
def NO2Index.get_interval (idx : NO2Index) : Option String := idx.interval

/-- Accessor `get_no2_samples`. -/
def NO2Index.get_no2_samples (idx : NO2Index) : List PyVal := idx.no2_samples

/-- Decimal rendering of an integer as a string. -/
def intStr (i : Int) : String :=
  if i < 0 then "-" ++ String.mk (natStr i.natAbs) else String.mk (natStr i.natAbs)

/-- Exponent field of the `%e` format: an explicit sign followed by the
exponent padded to at least two digits. -/
def expStr (e : Int) : List Char :=
  (if e < 0 then '-' else '+') ::
    (if e.natAbs < 10 then '0' :: natStr e.natAbs else natStr e.natAbs)

/-- Floor of the base-10 logarithm of the positive rational `n / d`,
computed on the numerator and denominator with natural arithmetic. -/
def ratExp10 (n d : Nat) : Int :=
  if d ≤ n then (numLen (n / d) : Int) - 1
  else
    let k := numLen (d / n) - 1
    if d ≤ n * 10 ^ k then -(k : Int) else -((k : Int) + 1)

/-- Mantissa and exponent of the `%e` rendering of a non-zero rational:
the mantissa is `|q|` scaled into `[1, 10)` and rounded to `prec` decimals
(computed exactly on the numerator/denominator as an integer with
`prec + 1` digits); a rounding overflow such as 9.99... carries into the
exponent, as in Python. -/
def formatEParts (prec : Nat) (q : Rat) : Nat × Int :=
  let n := q.num.natAbs
  let d := q.den
  let e := ratExp10 n d
  let m0 :=
    if 0 ≤ e then
      (2 * n * 10 ^ prec + d * 10 ^ e.toNat) / (2 * d * 10 ^ e.toNat)
    else
      (2 * n * 10 ^ (prec + (-e).toNat) + d) / (2 * d)
  if 10 ^ (prec + 1) ≤ m0 then (m0 / 10, e + 1) else (m0, e)

/-- Python `'%.<prec>e' % q` on a rational: base-10 scientific notation
with `prec` digits after the decimal point — sign, the high digits of the
rounded mantissa, `'.'`, its low `prec` digits, `'e'` and the signed
two-digit-padded exponent. -/
def formatE (prec : Nat) (q : Rat) : String :=
  if q = 0 then
    String.mk ('0' :: '.' :: (padDigits prec 0 ++ 'e' :: expStr 0))
  else
    String.mk ((if q.num < 0 then ['-'] else []) ++
      (natStr ((formatEParts prec q).1 / 10 ^ prec) ++ '.' ::
        (padDigits prec ((formatEParts prec q).1 % 10 ^ prec) ++ 'e' ::
          expStr (formatEParts prec q).2)))

/-- Worker for `replaceL`: structural recursion on a fuel bounded by the
input length (each step consumes at least one character). -/
def replaceLAux (pat rep : List Char) : Nat → List Char → List Char
  | 0, l => l
  | _ + 1, [] => []
  | fuel + 1, c :: cs =>
    if pat.isPrefixOf (c :: cs) ∧ pat ≠ [] then
      rep ++ replaceLAux pat rep fuel (List.drop (pat.length - 1) cs)
    else
      c :: replaceLAux pat rep fuel cs

/-- Python `str.replace` on character lists: every non-overlapping
occurrence of `pat` is replaced by `rep`, scanning left to right. -/
def replaceL (pat rep l : List Char) : List Char :=
  replaceLAux pat rep l.length l

/-- Python `s.replace(pat, rep)` on strings. -/
def pyReplace (s pat rep : String) : String :=
  String.mk (replaceL pat.toList rep.toList s.toList)

/-- Numeric value of a decimal digit character. -/
def digitVal (c : Char) : Nat := c.toNat - 48

/-- Natural number denoted by a list of decimal digit characters. -/
def natOfDigits (l : List Char) : Nat :=
  l.foldl (fun acc c => acc * 10 + digitVal c) 0

/-- Days between 1970-01-01 and the given civil date (proleptic Gregorian
calendar, standard days-from-civil computation). -/
def daysFromCivil (y m d : Int) : Int :=
  let y' := if m ≤ 2 then y - 1 else y
  let era : Int := (if 0 ≤ y' then y' else y' - 399) / 400
  let yoe := y' - era * 400
  let mp := if m ≤ 2 then m + 9 else m - 3
  let doy := (153 * mp + 2) / 5 + d - 1
  let doe := yoe * 365 + yoe / 4 - yoe / 100 + doy
  era * 146097 + doe - 719468

/-- Modelled from the spec: `formatting.ISO8601_to_UNIXtime` (external time
utility, not under src/) converts a timestamp string of the shape
`YYYY-MM-DD HH:MM:SS+00` into a Unix epoch integer and raises a
`ValueError` when the string does not match that shape. -/
def iso8601ToUnix (s : String) : Except PyErr Int :=
  match s.toList with
  | [y1, y2, y3, y4, '-', mo1, mo2, '-', d1, d2, ' ',
     h1, h2, ':', mi1, mi2, ':', s1, s2, '+', '0', '0'] =>
    if ([y1, y2, y3, y4, mo1, mo2, d1, d2, h1, h2, mi1, mi2, s1, s2].all (·.isDigit)) then
      let y := natOfDigits [y1, y2, y3, y4]
      let mo := natOfDigits [mo1, mo2]
      let d := natOfDigits [d1, d2]
      let h := natOfDigits [h1, h2]
      let mi := natOfDigits [mi1, mi2]
      let sec := natOfDigits [s1, s2]
      if 1 ≤ mo ∧ mo ≤ 12 ∧ 1 ≤ d ∧ d ≤ 31 ∧ h ≤ 23 ∧ mi ≤ 59 ∧ sec ≤ 61 then
        .ok (daysFromCivil y mo d * 86400 + h * 3600 + mi * 60 + sec)
      else .error (.valueError "time data does not match format")
    else .error (.valueError "time data does not match format")
  | _ => .error (.valueError "time data does not match format")

/-- Civil date (year, month, day) of a count of days since 1970-01-01
(standard civil-from-days computation, inverse of `daysFromCivil`). -/
def civilFromDays (z0 : Int) : Int × Int × Int :=
  let z := z0 + 719468
  let era : Int := (if 0 ≤ z then z else z - 146096) / 146097
  let doe := z - era * 146097
  let yoe := (doe - doe / 1460 + doe / 36524 - doe / 146096) / 365
  let y := yoe + era * 400
  let doy := doe - (365 * yoe + yoe / 4 - yoe / 100)
  let mp := (5 * doy + 2) / 153
  let d := doy - (153 * mp + 2) / 5 + 1
  let m := if mp < 10 then mp + 3 else mp - 9
  (if m ≤ 2 then y + 1 else y, m, d)

/-- ISO8601 rendering `YYYY-MM-DD HH:MM:SS+00` of a Unix epoch. -/
def unixToISO (t : Int) : String :=
  let days := t.fdiv 86400
  let secs := (t - days * 86400).toNat
  let c := civilFromDays days
  String.mk (natStr c.1.toNat ++ '-' :: (padDigits 2 c.2.1.toNat ++ '-' ::
    (padDigits 2 c.2.2.toNat ++ ' ' :: (padDigits 2 (secs / 3600) ++ ':' ::
    (padDigits 2 (secs % 3600 / 60) ++ ':' :: (padDigits 2 (secs % 60) ++
    ['+', '0', '0']))))))

/-- Result values of the black-box Time Formatter: a Unix integer, an
ISO8601 string, or a datetime object (modelled by its epoch). -/
inductive TimeVal where
  | unix (t : Int)
  | iso (s : String)
  | date (epoch : Int)
  deriving DecidableEq, Repr

/-- Modelled from the spec: the black-box Time Formatter
(`format_time(unix_ts, format) -> int|string|datetime`, external, not under
src/): returns the stored epoch for 'unix', an ISO8601 string for 'iso', a
datetime (modelled by its epoch) for 'date', and rejects any other format
tag with a ValueError. -/
def timeformat (t : Int) (fmt : String) : Except PyErr TimeVal :=
  if fmt = "unix" then .ok (.unix t)
  else if fmt = "iso" then .ok (.iso (unixToISO t))
  else if fmt = "date" then .ok (.date t)
  else .error (.valueError "Invalid value for timeformat parameter")

/-- Python `float(v)`: numbers pass through, booleans coerce to 0/1,
numeric strings are parsed (plain decimal with optional sign, fraction and
exponent; non-finite spellings are not modelled), anything else raises. -/
def parsePyFloat (s : String) : Option Rat :=
  let l := s.toList
  let signNeg : Bool := match l with | '-' :: _ => true | _ => false
  let l1 : List Char := match l with | '-' :: r => r | '+' :: r => r | _ => l
  let ip := l1.takeWhile (·.isDigit)
  let r1 := l1.dropWhile (·.isDigit)
  let fp : List Char := match r1 with | '.' :: r => r.takeWhile (·.isDigit) | _ => []
  let r2 : List Char := match r1 with | '.' :: r => r.dropWhile (·.isDigit) | _ => r1
  if ip = [] ∧ fp = [] then Option.none
  else
    let mantissa : Int := (natOfDigits ip * 10 ^ fp.length + natOfDigits fp : Nat)
    let mantissa := if signNeg then -mantissa else mantissa
    match r2 with
    | [] => some (mkRat mantissa (10 ^ fp.length))
    | 'e' :: r3 | 'E' :: r3 =>
      let exNeg : Bool := match r3 with | '-' :: _ => true | _ => false
      let r4 : List Char := match r3 with | '-' :: r => r | '+' :: r => r | _ => r3
      if r4 ≠ [] ∧ r4.all (·.isDigit) then
        let ex := natOfDigits r4
        if exNeg then some (mkRat mantissa (10 ^ (fp.length + ex)))
        else some (mkRat (mantissa * 10 ^ ex) (10 ^ fp.length))
      else Option.none
    | _ => Option.none

/-- Python `float(v)` on a dynamically typed value. -/
def pyFloat (v : PyVal) : Except PyErr Rat :=
  match v with
  | .num q => .ok q
  | .bool b => .ok (if b then 1 else 0)
  | .str s =>
    match parsePyFloat s with
    | some q => .ok q
    | Option.none => .error (.valueError "could not convert string to float")
  | _ => .error (.typeError "float() argument must be a string or a number")

/-- Python `str(v)` as far as the embedding needs it: strings verbatim,
None and booleans as Python spells them, integral numbers in decimal; the
textual form of non-integral numbers and of containers is abstracted (it
is never inspected by any theorem in this development). -/
def pyStr (v : PyVal) : String :=
  match v with
  | .str s => s
  | .none => "None"
  | .bool b => if b then "True" else "False"
  | .num q =>
    if q.den = 1 then intStr q.num
    else intStr q.num ++ "/" ++ String.mk (natStr q.den)
  | .list _ => "<list>"
  | .dict _ => "<dict>"

/-- Python `str` applied to the stored interval (a string or None). -/
def pyStrOpt (o : Option String) : String :=
  match o with
  | Option.none => "None"
  | some s => s

/-- Conversion of an optional string field to its JSON/dict value. -/
def optStrVal (o : Option String) : PyVal :=
  match o with
  | Option.none => .none
  | some s => .str s

/-- Conversion of an optional integer field to its JSON/dict value. -/
def optIntVal (o : Option Int) : PyVal :=
  match o with
  | Option.none => .none
  | some i => .num i

/-- DOM element of the intermediate XML tree (`xml.etree` Element): a tag,
optional text and a list of child elements. -/
inductive XMLNode where
  | node (tag : String) (text : Option String) (children : List XMLNode)

/-- Tag of a DOM element. -/
def XMLNode.tag : XMLNode → String
  | .node t _ _ => t

/-- Text of a DOM element. -/
def XMLNode.text : XMLNode → Option String
  | .node _ t _ => t

/-- Children of a DOM element. -/
def XMLNode.children : XMLNode → List XMLNode
  | .node _ _ c => c

/-- Modelled from the spec: `xml.create_DOM_node_from_dict` (external XML
DOM helper, not under src/): builds an element with the given tag and one
child element per dict entry, the entry key as the child's tag and the
entry value's string rendering as its text. -/
def create_DOM_node_from_dict (d : List (String × PyVal)) (tag : String) :
    XMLNode :=
  .node tag Option.none (d.map (fun kv => .node kv.1 (some (pyStr kv.2)) []))

/-- Dict projection of a `Location`.  Modelled from the spec: Location's
own dict projection (name, nested lon/lat coordinates, ID, country). -/
def Location.to_dict (l : Location) : PyVal :=
  .dict [("name", optStrVal l.name),
         ("coordinates", .dict [("lon", .num l.lon), ("lat", .num l.lat)]),
         ("ID", optIntVal l.id),
         ("country", optStrVal l.country)]

/-- JSON projection of a `Location`, after parsing back into a mapping.
Modelled from the spec: each value object's `to_JSON` serializes the same
logical structure as its `to_dict`, so the parsed-back mapping is that
dict. -/
def Location.to_JSON_parsed (l : Location) : PyVal := l.to_dict

/-- XML projection of a `Location`.  Modelled from the spec: Location's
own XML subtree. -/
def Location.toDOM (l : Location) : XMLNode :=
  .node "location" Option.none
    [.node "name" (some (pyStr (optStrVal l.name))) [],
     .node "lon" (some (pyStr (.num l.lon))) [],
     .node "lat" (some (pyStr (.num l.lat))) [],
     .node "ID" (some (pyStr (optIntVal l.id))) [],
     .node "country" (some (pyStr (optStrVal l.country))) []]

/-- Accessor `get_reference_time`: delegates to the Time Formatter with the
stored reference epoch. -/
def NO2Index.get_reference_time (idx : NO2Index) (fmt : String := "unix") :
    Except PyErr TimeVal :=
  timeformat idx.reference_time fmt

/-- Accessor `get_reception_time`: delegates to the Time Formatter with the
stored reception epoch. -/
def NO2Index.get_reception_time (idx : NO2Index) (fmt : String := "unix") :
    Except PyErr TimeVal :=
  timeformat idx.reception_time fmt

/-- Method `is_forecast`: compares the current wall-clock epoch (passed
explicitly as `now`, the value of `timestamps.now('unix')`) with
`get_reference_time('unix')`. -/
def NO2Index.is_forecast (idx : NO2Index) (now : Int) : Except PyErr Bool :=
  match idx.get_reference_time "unix" with
  | .error e => .error e
  | .ok (.unix t) => .ok (decide (now < t))
  | .ok _ => .error (.typeError "'<' not supported between instances")

/-- Method `to_dict`: the mapping with the full field set, the nested
location converted via its own `to_dict`. -/
def NO2Index.to_dict (idx : NO2Index) : PyVal :=
  .dict [("reference_time", .num idx.reference_time),
         ("location", idx.location.to_dict),
         ("interval", optStrVal idx.interval),
         ("no2_samples", .list idx.no2_samples),
         ("reception_time", .num idx.reception_time)]

/-- Method `to_JSON`, composed with parsing the produced string back into a
mapping.  The embedding works at the mapping level: `json.dumps` followed
by `json.loads` is the identity on the mapping the source passes to
`json.dumps`, so this definition is that mapping, with the `location`
entry being the parse of `self._location.to_JSON()`. -/
def NO2Index.to_JSON_parsed (idx : NO2Index) : PyVal :=
  .dict [("reference_time", .num idx.reference_time),
         ("location", idx.location.to_JSON_parsed),
         ("interval", optStrVal idx.interval),
         ("no2_samples", .list idx.no2_samples),
         ("reception_time", .num idx.reception_time)]

/-- Python `'{:.12e}'.format(v)`: scientific notation with 12 fractional
digits for numbers; non-numbers fail as Python's format would. -/
def pyFormat12 (v : PyVal) : Except PyErr String :=
  match v with
  | .num q => .ok (formatE 12 q)
  | .str _ => .error (.valueError "Unknown format code for object of type str")
  | _ => .error (.typeError "unsupported format string passed to object")

/-- Per-sample body of `_to_DOM`: reads `label`, `value` and `precision`
from the (copied) sample record and replaces `value` and `precision` with
their `'{:.12e}'`-formatted strings; a missing key raises KeyError. -/
def formatSampleDict (d : List (String × PyVal)) :
    Except PyErr (List (String × PyVal)) :=
  match d.lookup "label" with
  | Option.none => .error (.keyError "label")
  | some lab =>
    let s1 := dictSet d "label" lab
    match s1.lookup "value" with
    | Option.none => .error (.keyError "value")
    | some v =>
      match pyFormat12 v with
      | .error e => .error e
      | .ok vs =>
        let s2 := dictSet s1 "value" (.str vs)
        match s2.lookup "precision" with
        | Option.none => .error (.keyError "precision")
        | some p =>
          match pyFormat12 p with
          | .error e => .error e
          | .ok ps => .ok (dictSet s2 "precision" (.str ps))

/-- Processing of one stored sample inside `_to_DOM`: `smpl.copy()` is
taken, the copy is formatted and turned into a `no2_sample` element.  The
second component is the record as it remains in the stored list after the
call: the source mutates only the copy, so it is the original record. -/
def processSample (smpl : PyVal) : Except PyErr (XMLNode × PyVal) :=
  match smpl with
  | .dict d =>
    match formatSampleDict d with
    | .error e => .error e
    | .ok s => .ok (create_DOM_node_from_dict s "no2_sample", .dict d)
  | .list _ => .error (.typeError "list indices must be integers or slices, not str")
  | _ => .error (.attributeError "copy")

/-- Method `_to_DOM`: builds the `no2index` root with `reference_time`,
`reception_time`, `interval` scalar children, the `no2_samples` container
holding one formatted element per sample, and the appended location
subtree.  The second component of the result is the object as it stands
after the call (state passing makes the absence of mutation provable). -/
def NO2Index.toDOM (idx : NO2Index) : Except PyErr (XMLNode × NO2Index) :=
  match mapE processSample idx.no2_samples with
  | .error e => .error e
  | .ok pairs =>
    .ok (.node "no2index" Option.none
          [.node "reference_time" (some (intStr idx.reference_time)) [],
           .node "reception_time" (some (intStr idx.reception_time)) [],
           .node "interval" (some (pyStrOpt idx.interval)) [],
           .node "no2_samples" Option.none (pairs.map Prod.fst),
           idx.location.toDOM],
         { idx with no2_samples := pairs.map Prod.snd })

/-- Body of the sample list comprehension in `from_dict`:
`dict(label=key, precision=the_dict['data'][key]['precision'],
value=the_dict['data'][key]['value'])`. -/
def NO2Index.extractSample (dataV key : PyVal) : Except PyErr PyVal :=
  match pySubscript dataV key with
  | .error e => .error e
  | .ok rec0 =>
    match pySubscriptStr rec0 "precision" with
    | .error e => .error e
    | .ok prec =>
      match pySubscriptStr rec0 "value" with
      | .error e => .error e
      | .ok v => .ok (.dict [("label", key), ("precision", prec), ("value", v)])

/-- Try-block body of `from_dict`: reference time from the normalized
`time` string, the `Location` from the nested longitude/latitude, and the
flattened sample list from the `data` mapping, in source order. -/
def NO2Index.fromDictParts (d : PyVal) :
    Except PyErr (Int × Location × List PyVal) :=
  match pySubscriptStr d "time" with
  | .error e => .error e
  | .ok timeV =>
    match timeV with
    | .str ts =>
      match iso8601ToUnix (pyReplace (pyReplace ts "Z" "+00") "T" " ") with
      | .error e => .error e
      | .ok reference_time =>
        match pySubscriptStr d "location" with
        | .error e => .error e
        | .ok locV =>
          match pySubscriptStr locV "longitude" with
          | .error e => .error e
          | .ok lonV =>
            match pyFloat lonV with
            | .error e => .error e
            | .ok lon =>
              match pySubscriptStr locV "latitude" with
              | .error e => .error e
              | .ok latV =>
                match pyFloat latV with
                | .error e => .error e
                | .ok lat =>
                  match pySubscriptStr d "data" with
                  | .error e => .error e
                  | .ok dataV =>
                    match pyIter dataV with
                    | .error e => .error e
                    | .ok keys =>
                      match mapE (NO2Index.extractSample dataV) keys with
                      | .error e => .error e
                      | .ok samples =>
                        .ok (reference_time, ⟨Option.none, lon, lat, Option.none, Option.none⟩, samples)
    | _ => .error (.attributeError "replace")

/-- Python `v is None`. -/
def PyVal.isNone : PyVal → Bool
  | .none => true
  | _ => false

/-- Classmethod `from_dict`: rejects None with a ParseResponseError,
re-raises a KeyError from the try-block uniformly as a ParseResponseError,
lets every other error propagate, and finally calls the validating
constructor (outside the try-block) with interval None and the current
wall-clock epoch `now` as reception time. -/
def NO2Index.from_dict (now : Int) (the_dict : PyVal) : Except PyErr NO2Index :=
  if the_dict.isNone then .error (.parseResponseError "Data is None")
  else
    match NO2Index.fromDictParts the_dict with
    | .error (.keyError _) =>
      .error (.parseResponseError "pyowm.pollutionapi30.no2index: impossible to parse NO2Index")
    | .error e => .error e
    | .ok (reference_time, place, no2_samples) =>
      NO2Index.init reference_time place Option.none (.list no2_samples) now

/-- Metadata for a satellite-acquired image
(src/pyowm/agroapi10/imagery.py). -/
structure MetaImage where
  url : String
  preset : String
  satellite_name : String
  acquisition_time : Int
  valid_data_percentage : Rat
  cloud_coverage_percentage : Rat
  sun_azimuth : Rat
  sun_elevation : Rat
  polygon_id : Option String
  stats_url : Option String

/-- Constructor `MetaImage.__init__`: the assert-based range checks in
source order (the isinstance asserts hold by the typing of the embedding);
a failing assert raises AssertionError with the source's message. -/
def MetaImage.init (url preset satellite_name : String)
    (acquisition_time : Int) (valid_data_percentage : Rat)
    (cloud_coverage_percentage : Rat) (sun_azimuth : Rat)
    (sun_elevation : Rat) (polygon_id : Option String := Option.none)
    (stats_url : Option String := Option.none) : Except PyErr MetaImage :=
  if 0 ≤ acquisition_time then
    if 0 ≤ valid_data_percentage then
      if 0 ≤ cloud_coverage_percentage then
        if 0 ≤ sun_azimuth ∧ sun_azimuth ≤ 360 then
          if 0 ≤ sun_elevation ∧ sun_elevation ≤ 90 then
            .ok ⟨url, preset, satellite_name, acquisition_time,
                 valid_data_percentage, cloud_coverage_percentage, sun_azimuth,
                 sun_elevation, polygon_id, stats_url⟩
          else .error (.assertionError "sun_elevation must be between 0 and 90 degrees")
        else .error (.assertionError "sun_azimuth must be between 0 and 360 degrees")
      else .error (.assertionError "cloud_coverage_percentage cannot be negative")
    else .error (.assertionError "valid_data_percentage cannot be negative")
  else .error (.assertionError "acquisition_time cannot be negative")

/-- Binary payload of a satellite image: either an `Image` or a `Tile`
object (external containers; their contents are opaque here). -/
inductive SatImageData where
  | image (raw : List Nat)
  | tile (raw : List Nat)

/-- Downloaded satellite image (src/pyowm/agroapi10/imagery.py): metadata,
payload and the optional download epoch.  The `_downloaded_on` field being
`none` models the Python attribute never having been assigned (the
constructor assigns it only when the argument is not None). -/
structure SatelliteImage where
  metadata : MetaImage
  data : SatImageData
  _downloaded_on : Option Int

/-- Constructor `SatelliteImage.__init__`: the isinstance asserts on
`metadata`, `data` and (when not None) `downloaded_on` hold by the typing
of the embedding; no range check is performed on `downloaded_on`, and when
it is None the `_downloaded_on` attribute is simply not assigned. -/
def SatelliteImage.init (metadata : MetaImage) (data : SatImageData)
    (downloaded_on : Option Int := Option.none) : Except PyErr SatelliteImage :=
  .ok ⟨metadata, data, downloaded_on⟩

/-- Method `downloaded_on`: reads `self._downloaded_on` (an
AttributeError when the constructor never assigned it) and delegates to
the Time Formatter. -/
def SatelliteImage.downloaded_on (img : SatelliteImage)
    (fmt : String := "unix") : Except PyErr TimeVal :=
  match img._downloaded_on with
  | Option.none => .error (.attributeError "_downloaded_on")
  | some t => timeformat t fmt

/-- Value of the `precision` entry of a parsed sample record (the default
is never reached under the well-formedness hypotheses that use it). -/
def precOf (v : PyVal) : PyVal :=
  match v with
  | .dict r => (r.lookup "precision").getD .none
  | _ => .none

/-- Value of the `value` entry of a parsed sample record. -/
def valOf (v : PyVal) : PyVal :=
  match v with
  | .dict r => (r.lookup "value").getD .none
  | _ => .none

/-- Well-shaped sample record: a dict carrying a `label` entry and numeric
`value` and `precision` entries — exactly what `_to_DOM`'s per-sample
formatting requires in order to succeed. -/
def sampleOk (s : PyVal) : Bool :=
  match s with
  | .dict d =>
    (d.lookup "label").isSome &&
    (match d.lookup "value" with | some (.num _) => true | _ => false) &&
    (match d.lookup "precision" with | some (.num _) => true | _ => false)
  | _ => false

/-- Chars strictly between the first `'.'` and the following `'e'` of a
string, when both are present in that order (the fraction digits of a
scientific-notation rendering); `none` otherwise. -/
def fracDigitsOfSci (s : String) : Option (List Char) :=
  match s.toList.dropWhile (fun c => c ≠ '.') with
  | [] => Option.none
  | _ :: rest =>
    if rest.any (fun c => c = 'e') then some (rest.takeWhile (fun c => c ≠ 'e'))
    else Option.none

/-- True exactly when a `from_dict` result is a raised ParseResponseError. -/
def failsWithParseError (r : Except PyErr NO2Index) : Bool :=
  match r with
  | .error (.parseResponseError _) => true
  | _ => false

/-- Concrete `Location` used by witnesses (the one of the repository's
unit tests). -/
def loc0 : Location :=
  ⟨some "test", mkRat 123 10, mkRat 437 10, some 987, some "UK"⟩

/-- Concrete well-formed `NO2Index` used by witnesses. -/
def no2_w : NO2Index :=
  ⟨1, loc0, some "day",
   [.dict [("label", .str "max"), ("precision", .num 0),
           ("value", .num (mkRat 1 2))]], 2⟩

/-- Concrete `NO2Index` that passes construction but whose sample record
is an empty dict (so `_to_DOM` raises a KeyError). -/
def no2_bad : NO2Index := ⟨1, loc0, some "day", [.dict []], 1⟩

/-- The spec's example input for `from_dict`, verbatim: its `data` entry
is a list of records (9.2359 is `mkRat 92359 10000`; the float literals
are the exact rationals of their decimal spellings). -/
def exampleListData : PyVal :=
  .dict [("time", .str "2016-10-01T13:07:01Z"),
         ("location", .dict [("latitude", .num 0),
                             ("longitude", .num (mkRat 92359 10000))]),
         ("data", .list [.dict
            [("precision", .num (mkRat (-2499999993688107) 5000000000000000000000)),
             ("pressure", .num 1000),
             ("value", .num (mkRat 8609262636127823 100000000000000000000000))]])]

/-- The example input reshaped to the mapping-of-records form that
`NO2Index.from_dict` actually consumes (`data` keyed by a level label). -/
def exampleMapData : PyVal :=
  .dict [("time", .str "2016-10-01T13:07:01Z"),
         ("location", .dict [("latitude", .num 0),
                             ("longitude", .num (mkRat 92359 10000))]),
         ("data", .dict [("level0", .dict
            [("precision", .num (mkRat (-2499999993688107) 5000000000000000000000)),
             ("value", .num (mkRat 8609262636127823 100000000000000000000000))])])]

/-- The object `from_dict` builds from `exampleMapData` when the
wall-clock epoch is 1475283600. -/
def exampleParsed : NO2Index :=
  ⟨1475327221, ⟨Option.none, mkRat 92359 10000, 0, Option.none, Option.none⟩,
   Option.none,
   [.dict [("label", .str "level0"),
           ("precision", .num (mkRat (-2499999993688107) 5000000000000000000000)),
           ("value", .num (mkRat 8609262636127823 100000000000000000000000))]],
   1475283600⟩

/-- Concrete `MetaImage` used by witnesses. -/
def meta0 : MetaImage :=
  ⟨"http://exampleimg.com/img.png", "truecolor", "Landsat 8", 1378459200,
   98, 0, 310, 32, Option.none, Option.none⟩

/-- Concrete image payload used by witnesses. -/
def data0 : SatImageData := .image [1, 2, 3]

/-- The DOM/object pair `no2_w.toDOM` produces. -/
def resW : XMLNode × NO2Index :=
  (.node "no2index" Option.none
    [.node "reference_time" (some "1") [],
     .node "reception_time" (some "2") [],
     .node "interval" (some "day") [],
     .node "no2_samples" Option.none
       [.node "no2_sample" Option.none
         [.node "label" (some "max") [],
          .node "precision" (some "0.000000000000e+00") [],
          .node "value" (some "5.000000000000e-01") []]],
     loc0.toDOM],
   no2_w)

/-- The `no2_samples` container element inside `resW`. -/
def snW : XMLNode :=
  .node "no2_samples" Option.none
    [.node "no2_sample" Option.none
      [.node "label" (some "max") [],
       .node "precision" (some "0.000000000000e+00") [],
       .node "value" (some "5.000000000000e-01") []]]

/-- The formatted sample element inside `snW`. -/
def cW : XMLNode :=
  .node "no2_sample" Option.none
    [.node "label" (some "max") [],
     .node "precision" (some "0.000000000000e+00") [],
     .node "value" (some "5.000000000000e-01") []]

/-- The formatted `value` child element inside `cW`. -/
def vcW : XMLNode := .node "value" (some "5.000000000000e-01") []

/-! General lemmas about the embedding's helpers. -/

theorem toList_mk (l : List Char) : (String.mk l).toList = l := rfl

theorem init_list_eq (rt : Int) (loc : Location) (intv : Option String)
    (xs : List PyVal) (rct : Int) :
    NO2Index.init rt loc intv (.list xs) rct
      = if rt < 0 then .error (.valueError "'reference_time' must be greater than 0")
        else if rct < 0 then .error (.valueError "'reception_time' must be greater than 0")
        else .ok ⟨rt, loc, intv, xs, rct⟩ := rfl

/-- C1: for every NO2Index, the string produced by `to_JSON()` parses back
into a mapping structurally equal (here: equal outright, the strongest
form of equality ignoring key order) to the mapping returned by
`to_dict()` — same reference_time, reception_time, interval, no2_samples
and the same logical location fields.  The two source methods build the
same mapping, the `location` entry via `json.loads(location.to_JSON())`
in one and `location.to_dict()` in the other, which coincide for the
spec-modelled Location codec. -/
theorem no2index_to_JSON_parsed_eq_to_dict (idx : NO2Index) :
    idx.to_JSON_parsed = idx.to_dict := rfl

/-- C3: NO2Index construction succeeds with all fields assigned exactly
when `reference_time ≥ 0`, `reception_time ≥ 0` and the samples argument
is a list; every failure is a ValueError (the source raises plain
`ValueError` both for the negative epochs — the spec's InvalidArgument
class — and for a non-list samples argument), and no object is returned
in any failure case (`Except.error` carries no object). -/
theorem no2index_init_spec (reference_time : Int) (location : Location)
    (interval : Option String) (no2_samples : PyVal) (reception_time : Int) :
    ((∃ xs, no2_samples = PyVal.list xs) ∧ 0 ≤ reference_time ∧ 0 ≤ reception_time
        ↔ ∃ obj, NO2Index.init reference_time location interval no2_samples reception_time
            = .ok obj)
    ∧ (∀ xs, no2_samples = PyVal.list xs → 0 ≤ reference_time → 0 ≤ reception_time →
        NO2Index.init reference_time location interval no2_samples reception_time
          = .ok ⟨reference_time, location, interval, xs, reception_time⟩)
    ∧ (∀ e, NO2Index.init reference_time location interval no2_samples reception_time
          = .error e → ∃ msg, e = PyErr.valueError msg) := by
  refine ⟨⟨?_, ?_⟩, ?_, ?_⟩
  · rintro ⟨⟨xs, hxs⟩, h1, h2⟩
    subst hxs
    exact ⟨⟨reference_time, location, interval, xs, reception_time⟩,
      by simp [NO2Index.init, not_lt.mpr h1, not_lt.mpr h2]⟩
  · rintro ⟨obj, hobj⟩
    rcases no2_samples with _ | b | q | s | xs | en
    · unfold NO2Index.init at hobj
      split at hobj <;> simp at hobj
    · unfold NO2Index.init at hobj
      split at hobj <;> simp at hobj
    · unfold NO2Index.init at hobj
      split at hobj <;> simp at hobj
    · unfold NO2Index.init at hobj
      split at hobj <;> simp at hobj
    · rw [init_list_eq] at hobj
      split at hobj
      · simp at hobj
      · split at hobj
        · simp at hobj
        · exact ⟨⟨xs, rfl⟩, by omega, by omega⟩
    · unfold NO2Index.init at hobj
      split at hobj <;> simp at hobj
  · intro xs hxs h1 h2
    subst hxs
    simp [NO2Index.init, not_lt.mpr h1, not_lt.mpr h2]
  · intro e he
    rcases no2_samples with _ | b | q | s | xs | en
    · unfold NO2Index.init at he
      split at he <;> (injection he with h; exact ⟨_, h.symm⟩)
    · unfold NO2Index.init at he
      split at he <;> (injection he with h; exact ⟨_, h.symm⟩)
    · unfold NO2Index.init at he
      split at he <;> (injection he with h; exact ⟨_, h.symm⟩)
    · unfold NO2Index.init at he
      split at he <;> (injection he with h; exact ⟨_, h.symm⟩)
    · rw [init_list_eq] at he
      split at he
      · injection he with h
        exact ⟨_, h.symm⟩
      · split at he
        · injection he with h
          exact ⟨_, h.symm⟩
        · simp at he
    · unfold NO2Index.init at he
      split at he <;> (injection he with h; exact ⟨_, h.symm⟩)

/-- Witness for C3: a concrete valid construction succeeds with the
fields assigned. -/
theorem no2index_init_spec_witness :
    NO2Index.init 5 loc0 (some "day") (.list []) 7
      = .ok ⟨5, loc0, some "day", [], 7⟩ :=
  (no2index_init_spec 5 loc0 (some "day") (.list []) 7).2.1 [] rfl
    (by decide) (by decide)

/-- C5: MetaImage construction succeeds with all fields assigned exactly
when `acquisition_time ≥ 0`, both percentages are non-negative,
`sun_azimuth ∈ [0, 360]` and `sun_elevation ∈ [0, 90]` (given arguments of
the expected types, as in this typed embedding); any violated range
condition fails with an AssertionError, the source's realization of the
spec's InvalidArgument class. -/
theorem metaimage_init_spec (url preset satellite_name : String)
    (acquisition_time : Int) (vdp ccp az el : Rat)
    (polygon_id stats_url : Option String) :
    ((0 ≤ acquisition_time ∧ 0 ≤ vdp ∧ 0 ≤ ccp ∧ (0 ≤ az ∧ az ≤ 360) ∧
        (0 ≤ el ∧ el ≤ 90))
      ↔ MetaImage.init url preset satellite_name acquisition_time vdp ccp az el
          polygon_id stats_url
        = .ok ⟨url, preset, satellite_name, acquisition_time, vdp, ccp, az, el,
               polygon_id, stats_url⟩)
    ∧ (¬ (0 ≤ acquisition_time ∧ 0 ≤ vdp ∧ 0 ≤ ccp ∧ (0 ≤ az ∧ az ≤ 360) ∧
          (0 ≤ el ∧ el ≤ 90)) →
        ∃ msg, MetaImage.init url preset satellite_name acquisition_time vdp ccp
            az el polygon_id stats_url = .error (.assertionError msg)) := by
  rw [MetaImage.init]
  split_ifs with h1 h2 h3 h4 h5
  · exact ⟨⟨fun _ => rfl, fun _ => ⟨h1, h2, h3, h4, h5⟩⟩,
      fun hn => absurd ⟨h1, h2, h3, h4, h5⟩ hn⟩
  · exact ⟨⟨fun h => absurd h.2.2.2.2 h5, fun h => by simp at h⟩, fun _ => ⟨_, rfl⟩⟩
  · exact ⟨⟨fun h => absurd h.2.2.2.1 h4, fun h => by simp at h⟩, fun _ => ⟨_, rfl⟩⟩
  · exact ⟨⟨fun h => absurd h.2.2.1 h3, fun h => by simp at h⟩, fun _ => ⟨_, rfl⟩⟩
  · exact ⟨⟨fun h => absurd h.2.1 h2, fun h => by simp at h⟩, fun _ => ⟨_, rfl⟩⟩
  · exact ⟨⟨fun h => absurd h.1 h1, fun h => by simp at h⟩, fun _ => ⟨_, rfl⟩⟩

/-- Witness for C5: a concrete in-range construction succeeds. -/
theorem metaimage_init_spec_witness :
    MetaImage.init "http://exampleimg.com/img.png" "truecolor" "Landsat 8"
      1378459200 98 0 310 32 Option.none Option.none = .ok meta0 :=
  (metaimage_init_spec "http://exampleimg.com/img.png" "truecolor" "Landsat 8"
      1378459200 98 0 310 32 Option.none Option.none).1.mp
    ⟨by decide, by decide, by decide, ⟨by decide, by decide⟩, ⟨by decide, by decide⟩⟩

/-- C6: `is_forecast()` returns true exactly when the current wall-clock
epoch (the value `timestamps.now('unix')` returns, passed here as `now`)
is strictly less than the stored `reference_time`; in particular it
returns false when `reference_time` equals the current epoch or lies in
the past. -/
theorem no2index_is_forecast_spec (idx : NO2Index) (now : Int) :
    idx.is_forecast now = .ok (decide (now < idx.reference_time))
    ∧ (idx.is_forecast now = .ok true ↔ now < idx.reference_time)
    ∧ (idx.reference_time ≤ now → idx.is_forecast now = .ok false) := by
  have h : idx.is_forecast now = .ok (decide (now < idx.reference_time)) := rfl
  refine ⟨h, ⟨?_, ?_⟩, ?_⟩
  · intro h2
    rw [h] at h2
    injection h2 with h3
    exact of_decide_eq_true h3
  · intro h2
    rw [h, decide_eq_true h2]
  · intro h2
    rw [h, decide_eq_false (not_lt.mpr h2)]

/-- Witness for C6: a strictly-future reference time yields true. -/
theorem no2index_is_forecast_witness : no2_w.is_forecast 0 = .ok true :=
  (no2index_is_forecast_spec no2_w 0).2.1.mpr (by decide)

/-- C8 counterexample: constructing a SatelliteImage with the negative
integer `downloaded_on = -5` (and valid metadata and data) succeeds,
contradicting the claim that it fails — the source performs no
non-negativity check on `downloaded_on`. -/
theorem satelliteimage_init_negative_succeeds :
    SatelliteImage.init meta0 data0 (some (-5)) = .ok ⟨meta0, data0, some (-5)⟩ := rfl

/-- C8 as amended: `downloaded_on` is an optional integer; construction
succeeds (with the field assigned exactly when the argument is not None)
for None and for every integer, including negative ones — no range check
is performed. -/
theorem satelliteimage_init_spec (m : MetaImage) (d : SatImageData)
    (t : Option Int) : SatelliteImage.init m d t = .ok ⟨m, d, t⟩ := rfl

/-- C9: a SatelliteImage constructed with `downloaded_on = None` (the
default) never has its `_downloaded_on` attribute assigned, so the
`downloaded_on()` accessor raises an AttributeError for every requested
format rather than returning None or a sentinel. -/
theorem satelliteimage_downloaded_on_unassigned (m : MetaImage)
    (d : SatImageData) (fmt : String) :
    ∃ img, SatelliteImage.init m d Option.none = .ok img ∧
      img.downloaded_on fmt = .error (.attributeError "_downloaded_on") :=
  ⟨⟨m, d, Option.none⟩, rfl, rfl⟩

theorem isNone_eq_false_of_ne (d : PyVal) (h : d ≠ PyVal.none) :
    d.isNone = false := by
  cases d <;> first | exact absurd rfl h | rfl

/-- C4 counterexample: on the input mapping with a present but malformed
`time` value (`{'time': 42}`), `from_dict` raises an AttributeError (the
source calls `.replace` on the int), not a ParseResponseError — so a
malformed value of a required key is not re-raised uniformly, and
ParseResponseError is not the only failure mode. -/
theorem from_dict_malformed_not_parse_error :
    NO2Index.from_dict 0 (.dict [("time", .num 42)])
        = .error (.attributeError "replace")
    ∧ failsWithParseError (NO2Index.from_dict 0 (.dict [("time", .num 42)])) = false :=
  ⟨rfl, rfl⟩

/-- C4 as amended: `from_dict(None)` raises ParseResponseError; a KeyError
inside the try-block (in particular a required key absent from its
dict-typed container, e.g. a missing `time` key) is re-raised uniformly as
ParseResponseError; but any non-KeyError failure of the try-block (a
present key with a malformed value: TypeError, AttributeError, ValueError)
propagates as itself, so ParseResponseError is not the only failure mode
of `from_dict`. -/
theorem no2index_from_dict_error_spec (now : Int) (d : PyVal) :
    (NO2Index.from_dict now PyVal.none = .error (.parseResponseError "Data is None"))
    ∧ (∀ k, d ≠ PyVal.none → NO2Index.fromDictParts d = .error (.keyError k) →
        NO2Index.from_dict now d
          = .error (.parseResponseError "pyowm.pollutionapi30.no2index: impossible to parse NO2Index"))
    ∧ (∀ e, d ≠ PyVal.none → NO2Index.fromDictParts d = .error e →
        (∀ k, e ≠ PyErr.keyError k) → NO2Index.from_dict now d = .error e)
    ∧ (∀ entries, d = PyVal.dict entries → entries.lookup "time" = Option.none →
        NO2Index.from_dict now d
          = .error (.parseResponseError "pyowm.pollutionapi30.no2index: impossible to parse NO2Index")) := by
  have hkey : ∀ k (dd : PyVal), dd ≠ PyVal.none →
      NO2Index.fromDictParts dd = .error (.keyError k) →
      NO2Index.from_dict now dd
        = .error (.parseResponseError "pyowm.pollutionapi30.no2index: impossible to parse NO2Index") := by
    intro k dd hne hparts
    rw [NO2Index.from_dict, isNone_eq_false_of_ne dd hne, hparts]
    rfl
  refine ⟨rfl, fun k => hkey k d, ?_, ?_⟩
  · intro e hne hparts hk
    rw [NO2Index.from_dict, isNone_eq_false_of_ne d hne, hparts]
    rcases e with k | m | m | m | m | m | m
    · exact absurd rfl (hk k)
    · rfl
    · rfl
    · rfl
    · rfl
    · rfl
    · rfl
  · intro entries hd hlook
    subst hd
    have hparts : NO2Index.fromDictParts (.dict entries) = .error (.keyError "time") := by
      rw [NO2Index.fromDictParts]
      simp [pySubscriptStr, hlook]
    exact hkey "time" (.dict entries) (by simp) hparts

/-- Witness for C4 (amended): a mapping lacking the `time` key is rejected
with the uniform ParseResponseError. -/
theorem no2index_from_dict_error_witness :
    NO2Index.from_dict 0 (.dict [("x", .num 1)])
      = .error (.parseResponseError "pyowm.pollutionapi30.no2index: impossible to parse NO2Index") :=
  (no2index_from_dict_error_spec 0 (.dict [("x", .num 1)])).2.2.2
    [("x", .num 1)] rfl rfl

theorem lookup_cons_pair (k' k : String) (v : PyVal)
    (t : List (String × PyVal)) :
    ((k, v) :: t).lookup k' = if k' = k then some v else t.lookup k' := by
  by_cases h : k' = k
  · simp [List.lookup, h]
  · simp [List.lookup, h, beq_eq_false_iff_ne.mpr h]

theorem lookup_map_replace (d : List (String × PyVal)) (k k' : String)
    (v : PyVal) (h : k' ≠ k) :
    (d.map (fun kv => if kv.1 = k then (k, v) else kv)).lookup k' = d.lookup k' := by
  induction d with
  | nil => rfl
  | cons kv t ih =>
    obtain ⟨a, b⟩ := kv
    rw [List.map_cons]
    by_cases hk : (a, b).1 = k
    · rw [if_pos hk]
      simp only at hk
      subst hk
      rw [lookup_cons_pair, if_neg h, lookup_cons_pair, if_neg h]
      exact ih
    · rw [if_neg hk]
      simp only at hk
      by_cases hka : k' = a
      · rw [lookup_cons_pair, if_pos hka, lookup_cons_pair, if_pos hka]
      · rw [lookup_cons_pair, if_neg hka, lookup_cons_pair, if_neg hka]
        exact ih

theorem lookup_append_single (d : List (String × PyVal)) (k k' : String)
    (v : PyVal) (h : k' ≠ k) :
    (d ++ [(k, v)]).lookup k' = d.lookup k' := by
  induction d with
  | nil => simp [List.lookup, beq_eq_false_iff_ne.mpr h]
  | cons kv t ih =>
    obtain ⟨a, b⟩ := kv
    rw [List.cons_append]
    by_cases hka : k' = a
    · rw [lookup_cons_pair, if_pos hka, lookup_cons_pair, if_pos hka]
    · rw [lookup_cons_pair, if_neg hka, lookup_cons_pair, if_neg hka]
      exact ih

theorem lookup_dictSet_ne (d : List (String × PyVal)) (k k' : String)
    (v : PyVal) (h : k' ≠ k) :
    (dictSet d k v).lookup k' = d.lookup k' := by
  rw [dictSet]
  split
  · exact lookup_map_replace d k k' v h
  · exact lookup_append_single d k k' v h

theorem lookup_isSome_of_mem (d : List (String × PyVal)) (a : String)
    (b : PyVal) (h : (a, b) ∈ d) : (d.lookup a).isSome = true := by
  induction d with
  | nil => simp at h
  | cons kv t ih =>
    obtain ⟨ak, bk⟩ := kv
    rcases List.mem_cons.mp h with heq | hmem
    · rw [((Prod.mk.injEq _ _ _ _).mp heq).1, lookup_cons_pair, if_pos rfl]
      rfl
    · by_cases hka : a = ak
      · rw [lookup_cons_pair, if_pos hka]
        rfl
      · rw [lookup_cons_pair, if_neg hka]
        exact ih hmem

theorem mem_dictSet_eq_key (d : List (String × PyVal)) (k : String)
    (v : PyVal) (a : String) (b : PyVal)
    (hmem : (a, b) ∈ dictSet d k v) (ha : a = k) : b = v := by
  rw [dictSet] at hmem
  split at hmem
  · rcases List.mem_map.mp hmem with ⟨kv, _, heq⟩
    by_cases hk : kv.1 = k
    · rw [if_pos hk] at heq
      exact ((Prod.mk.injEq _ _ _ _).mp heq).2.symm
    · rw [if_neg hk] at heq
      exact absurd (by rw [heq]; exact ha) hk
  · rcases List.mem_append.mp hmem with hd | hs
    · rename_i hnone
      exact absurd (ha ▸ lookup_isSome_of_mem d a b hd) hnone
    · exact ((Prod.mk.injEq _ _ _ _).mp (List.mem_singleton.mp hs)).2

theorem mem_dictSet_ne_key (d : List (String × PyVal)) (k : String)
    (v : PyVal) (a : String) (b : PyVal)
    (hmem : (a, b) ∈ dictSet d k v) (ha : a ≠ k) : (a, b) ∈ d := by
  rw [dictSet] at hmem
  split at hmem
  · rcases List.mem_map.mp hmem with ⟨kv, hkv, heq⟩
    by_cases hk : kv.1 = k
    · rw [if_pos hk] at heq
      exact absurd ((Prod.mk.injEq _ _ _ _).mp heq).1.symm ha
    · rw [if_neg hk] at heq
      exact heq ▸ hkv
  · rcases List.mem_append.mp hmem with hd | hs
    · exact hd
    · exact absurd ((Prod.mk.injEq _ _ _ _).mp (List.mem_singleton.mp hs)).1 ha

theorem pyFormat12_ok (v : PyVal) (s : String) (h : pyFormat12 v = .ok s) :
    ∃ q, v = PyVal.num q ∧ s = formatE 12 q := by
  rcases v with _ | b | q | st | xs | dd
  · simp [pyFormat12] at h
  · simp [pyFormat12] at h
  · rw [pyFormat12] at h
    injection h with h2
    exact ⟨q, rfl, h2.symm⟩
  · simp [pyFormat12] at h
  · simp [pyFormat12] at h
  · simp [pyFormat12] at h

theorem formatSampleDict_ok_entries (d s' : List (String × PyVal))
    (h : formatSampleDict d = .ok s') (a : String) (b : PyVal)
    (hmem : (a, b) ∈ s') (hor : a = "value" ∨ a = "precision") :
    ∃ q, b = PyVal.str (formatE 12 q) := by
  rw [formatSampleDict] at h
  cases h1 : d.lookup "label" with
  | none => simp [h1] at h
  | some lab =>
    simp only [h1] at h
    cases h2 : (dictSet d "label" lab).lookup "value" with
    | none => simp [h2] at h
    | some v =>
      simp only [h2] at h
      cases h3 : pyFormat12 v with
      | error e => simp [h3] at h
      | ok vs =>
        simp only [h3] at h
        cases h4 : (dictSet (dictSet d "label" lab) "value" (.str vs)).lookup "precision" with
        | none => simp [h4] at h
        | some p =>
          simp only [h4] at h
          cases h5 : pyFormat12 p with
          | error e => simp [h5] at h
          | ok ps =>
            simp only [h5] at h
            injection h with h6
            subst h6
            obtain ⟨qv, _, hvs⟩ := pyFormat12_ok _ _ h3
            obtain ⟨qp, _, hps⟩ := pyFormat12_ok _ _ h5
            rcases hor with ha | ha
            · subst ha
              have hm2 := mem_dictSet_ne_key _ _ _ _ _ hmem (by decide)
              exact ⟨qv, hvs ▸ mem_dictSet_eq_key _ _ _ _ _ hm2 rfl⟩
            · subst ha
              exact ⟨qp, hps ▸ mem_dictSet_eq_key _ _ _ _ _ hmem rfl⟩

theorem formatSampleDict_ok_of (d : List (String × PyVal))
    (h : sampleOk (.dict d) = true) : ∃ s', formatSampleDict d = .ok s' := by
  rw [sampleOk] at h
  simp only [Bool.and_eq_true] at h
  obtain ⟨⟨hl, hv⟩, hp⟩ := h
  obtain ⟨lab, hlab⟩ := Option.isSome_iff_exists.mp hl
  have hv2 : ∃ qv, d.lookup "value" = some (.num qv) := by
    cases hv3 : d.lookup "value" with
    | none => rw [hv3] at hv; simp at hv
    | some v =>
      rw [hv3] at hv
      rcases v with _ | b | q | s | l | dd <;> simp at hv
      exact ⟨q, rfl⟩
  have hp2 : ∃ qp, d.lookup "precision" = some (.num qp) := by
    cases hp3 : d.lookup "precision" with
    | none => rw [hp3] at hp; simp at hp
    | some v =>
      rw [hp3] at hp
      rcases v with _ | b | q | s | l | dd <;> simp at hp
      exact ⟨q, rfl⟩
  obtain ⟨qv, hqv⟩ := hv2
  obtain ⟨qp, hqp⟩ := hp2
  rw [formatSampleDict]
  simp only [hlab, lookup_dictSet_ne d "label" "value" lab (by decide), hqv,
    pyFormat12, lookup_dictSet_ne _ "value" "precision" _ (by decide),
    lookup_dictSet_ne d "label" "precision" lab (by decide), hqp]
  exact ⟨_, rfl⟩

theorem processSample_snd (s : PyVal) (y : XMLNode × PyVal)
    (h : processSample s = .ok y) : y.2 = s := by
  rcases s with _ | b | q | st | xs | d
  · simp [processSample] at h
  · simp [processSample] at h
  · simp [processSample] at h
  · simp [processSample] at h
  · simp [processSample] at h
  · simp only [processSample] at h
    cases hf : formatSampleDict d with
    | error e => simp [hf] at h
    | ok s2 =>
      simp only [hf] at h
      injection h with h2
      rw [← h2]

theorem processSample_ok_node (s : PyVal) (y : XMLNode × PyVal)
    (h : processSample s = .ok y) :
    ∃ d s', s = PyVal.dict d ∧ formatSampleDict d = .ok s' ∧
      y.1 = create_DOM_node_from_dict s' "no2_sample" := by
  rcases s with _ | b | q | st | xs | d
  · simp [processSample] at h
  · simp [processSample] at h
  · simp [processSample] at h
  · simp [processSample] at h
  · simp [processSample] at h
  · simp only [processSample] at h
    cases hf : formatSampleDict d with
    | error e => simp [hf] at h
    | ok s2 =>
      simp only [hf] at h
      injection h with h2
      exact ⟨d, s2, rfl, hf, by rw [← h2]⟩

theorem processSample_ok_of (s : PyVal) (h : sampleOk s = true) :
    ∃ y, processSample s = .ok y := by
  rcases s with _ | b | q | st | xs | d
  · simp [sampleOk] at h
  · simp [sampleOk] at h
  · simp [sampleOk] at h
  · simp [sampleOk] at h
  · simp [sampleOk] at h
  · obtain ⟨s', hs'⟩ := formatSampleDict_ok_of d h
    simp only [processSample, hs']
    exact ⟨_, rfl⟩

theorem mapE_map_snd_processSample (l : List PyVal)
    (ys : List (XMLNode × PyVal)) (h : mapE processSample l = .ok ys) :
    ys.map Prod.snd = l := by
  induction l generalizing ys with
  | nil =>
    rw [mapE] at h
    injection h with h2
    rw [← h2]
    rfl
  | cons x xs ih =>
    rw [mapE] at h
    cases h1 : processSample x <;> rw [h1] at h
    · simp at h
    · cases h2 : mapE processSample xs <;> rw [h2] at h
      · simp at h
      · injection h with h3
        rw [← h3, List.map_cons, processSample_snd x _ h1, ih _ h2]

theorem mapE_ok_of_all (f : α → Except PyErr β) (l : List α)
    (h : ∀ x ∈ l, ∃ y, f x = .ok y) : ∃ ys, mapE f l = .ok ys := by
  induction l with
  | nil => exact ⟨[], rfl⟩
  | cons x xs ih =>
    obtain ⟨y, hy⟩ := h x (List.mem_cons_self x xs)
    obtain ⟨ys, hys⟩ := ih (fun z hz => h z (List.mem_cons_of_mem x hz))
    exact ⟨y :: ys, by rw [mapE, hy, hys]⟩

theorem mapE_ok_mem (f : α → Except PyErr β) (l : List α) (ys : List β)
    (h : mapE f l = .ok ys) : ∀ y ∈ ys, ∃ x ∈ l, f x = .ok y := by
  induction l generalizing ys with
  | nil =>
    rw [mapE] at h
    injection h with h2
    rw [← h2]
    intro y hy
    simp at hy
  | cons x xs ih =>
    rw [mapE] at h
    cases h1 : f x <;> rw [h1] at h
    · simp at h
    · cases h2 : mapE f xs <;> rw [h2] at h
      · simp at h
      · injection h with h3
        rw [← h3]
        intro y hy
        rcases List.mem_cons.mp hy with heq | hmem
        · exact ⟨x, List.mem_cons_self x xs, heq ▸ h1⟩
        · obtain ⟨z, hz, hfz⟩ := ih _ h2 y hmem
          exact ⟨z, List.mem_cons_of_mem x hz, hfz⟩

theorem mapE_map_ok (f : β → Except PyErr γ) (g : α → β) (m : α → γ)
    (l : List α) (h : ∀ x ∈ l, f (g x) = .ok (m x)) :
    mapE f (l.map g) = .ok (l.map m) := by
  induction l with
  | nil => rfl
  | cons x xs ih =>
    rw [List.map_cons, List.map_cons, mapE, h x (List.mem_cons_self x xs),
      ih (fun z hz => h z (List.mem_cons_of_mem x hz))]

/-- C10 counterexample: the object built from the validly constructed
arguments `(1, loc0, 'day', [{}], 1)` passes the constructor's checks, yet
`_to_DOM` (the object-level work of `to_XML`) fails with a KeyError — so
serialization can fail on a validly constructed object. -/
theorem no2index_toXML_fails_on_valid_object :
    NO2Index.init 1 loc0 (some "day") (.list [.dict []]) 1 = .ok no2_bad
    ∧ no2_bad.toDOM = .error (.keyError "label") := ⟨rfl, rfl⟩

/-- C10 as amended: NO2Index serialization never mutates the object —
`to_dict` and `to_JSON` are pure total projections of the fields (never
failing, by the embedding's typing), and the `_to_DOM` stage of `to_XML`
leaves every stored field, in particular each sample record and the order
of the samples list, unchanged (it formats copies of the sample records);
`_to_DOM` succeeds whenever every stored sample is a record carrying a
`label` entry and numeric `value` and `precision` entries, but on a
validly constructed object whose samples lack these keys it can fail with
a key-lookup error. -/
theorem no2index_toDOM_frame (idx : NO2Index) :
    (∀ res, idx.toDOM = .ok res → res.2 = idx)
    ∧ ((∀ s ∈ idx.no2_samples, sampleOk s = true) → ∃ res, idx.toDOM = .ok res) := by
  constructor
  · intro res hres
    rw [NO2Index.toDOM] at hres
    cases hm : mapE processSample idx.no2_samples <;> rw [hm] at hres
    · simp at hres
    · injection hres with h2
      rw [← h2]
      have h3 := mapE_map_snd_processSample _ _ hm
      simp [h3]
  · intro hall
    obtain ⟨ys, hys⟩ :=
      mapE_ok_of_all processSample idx.no2_samples
        (fun s hs => processSample_ok_of s (hall s hs))
    exact ⟨_, by rw [NO2Index.toDOM, hys]⟩

/-- Witness for C10 (amended): serialization succeeds on a concrete
object with well-shaped samples. -/
theorem no2index_toDOM_frame_witness : ∃ res, no2_w.toDOM = .ok res :=
  (no2index_toDOM_frame no2_w).2 (by decide)

theorem lookup_of_nodup_mem (d : List (String × PyVal))
    (hnd : (d.map Prod.fst).Nodup) (k : String) (v : PyVal)
    (h : (k, v) ∈ d) : d.lookup k = some v := by
  induction d with
  | nil => simp at h
  | cons kv t ih =>
    obtain ⟨a, b⟩ := kv
    rw [List.map_cons, List.nodup_cons] at hnd
    rcases List.mem_cons.mp h with heq | hmem
    · obtain ⟨h1, h2⟩ := (Prod.mk.injEq _ _ _ _).mp heq
      subst h1
      subst h2
      rw [lookup_cons_pair, if_pos rfl]
    · have hka : k ≠ a := fun hk =>
        hnd.1 (hk ▸ List.mem_map.mpr ⟨(k, v), hmem, rfl⟩)
      rw [lookup_cons_pair, if_neg hka]
      exact ih hnd.2 hmem

theorem extractSample_ok (ds : List (String × PyVal))
    (hnd : (ds.map Prod.fst).Nodup) (kv : String × PyVal) (hmem : kv ∈ ds)
    (r : List (String × PyVal)) (hr : kv.2 = PyVal.dict r)
    (p vv : PyVal) (hp : r.lookup "precision" = some p)
    (hvv : r.lookup "value" = some vv) :
    NO2Index.extractSample (.dict ds) (.str kv.1)
      = .ok (.dict [("label", .str kv.1), ("precision", p), ("value", vv)]) := by
  have hlook : ds.lookup kv.1 = some kv.2 :=
    lookup_of_nodup_mem ds hnd kv.1 kv.2 hmem
  rw [NO2Index.extractSample]
  simp only [pySubscript, hlook, hr, pySubscriptStr, hp, hvv]

/-- C2 counterexample: on the spec's example input verbatim (whose `data`
entry is a list of records, not a mapping), `from_dict` does not produce
an object at all: iterating the list yields the record dicts themselves,
which the comprehension then uses as list indices, raising an uncaught
TypeError — contradicting the claimed result of one sample with
`get_lon() = 9.2359`. -/
theorem from_dict_example_list_raises :
    NO2Index.from_dict 1475283600 exampleListData
      = .error (.typeError "list indices must be integers or slices, not dict") := rfl

/-- C2 as amended: for every well-formed input mapping whose `data` entry
is a mapping of records (the shape `from_dict` consumes: `time` a
parseable timestamp string, `location` a mapping with numeric `longitude`
and `latitude`, `data` a mapping — with distinct keys, as Python dicts
guarantee — of records each carrying `precision` and `value`),
`from_dict` returns an object whose interval is None, whose location has
name and id None with longitude/latitude from the payload, and whose
samples are exactly one record per `data` key carrying the key as `label`
plus the inner record's `precision` and `value`; the spec's example input
as written (with `data` a list) instead raises an uncaught TypeError, and
the corresponding mapping-shaped input yields `get_lon() = 9.2359`,
`get_interval() = None` and exactly one sample (see the witness). -/
theorem no2index_from_dict_wellformed (now rt : Int)
    (entries locEntries ds : List (String × PyVal)) (ts : String)
    (lon lat : Rat)
    (ht : entries.lookup "time" = some (.str ts))
    (hts : iso8601ToUnix (pyReplace (pyReplace ts "Z" "+00") "T" " ") = .ok rt)
    (hrt : 0 ≤ rt) (hnow : 0 ≤ now)
    (hloc : entries.lookup "location" = some (.dict locEntries))
    (hlon : locEntries.lookup "longitude" = some (.num lon))
    (hlat : locEntries.lookup "latitude" = some (.num lat))
    (hdata : entries.lookup "data" = some (.dict ds))
    (hnd : (ds.map Prod.fst).Nodup)
    (hrec : ∀ kv ∈ ds, ∃ r, kv.2 = PyVal.dict r ∧
        (r.lookup "precision").isSome = true ∧ (r.lookup "value").isSome = true) :
    NO2Index.from_dict now (.dict entries)
      = .ok ⟨rt, ⟨Option.none, lon, lat, Option.none, Option.none⟩, Option.none,
             ds.map (fun kv => PyVal.dict
               [("label", .str kv.1), ("precision", precOf kv.2),
                ("value", valOf kv.2)]),
             now⟩
    ∧ ∀ obj, NO2Index.from_dict now (.dict entries) = .ok obj →
        obj.get_location.get_lon = lon ∧ obj.get_interval = Option.none ∧
          obj.get_no2_samples.length = ds.length := by
  have hsteps : ∀ kv ∈ ds, NO2Index.extractSample (.dict ds) (.str kv.1)
      = .ok (.dict [("label", .str kv.1), ("precision", precOf kv.2),
                    ("value", valOf kv.2)]) := by
    intro kv hkv
    obtain ⟨r, hr, hpS, hvS⟩ := hrec kv hkv
    obtain ⟨p, hp⟩ := Option.isSome_iff_exists.mp hpS
    obtain ⟨vv, hvv⟩ := Option.isSome_iff_exists.mp hvS
    rw [extractSample_ok ds hnd kv hkv r hr p vv hp hvv]
    simp [precOf, valOf, hr, hp, hvv]
  have hmap : mapE (NO2Index.extractSample (.dict ds))
      (ds.map (fun kv => PyVal.str kv.1))
      = .ok (ds.map (fun kv => PyVal.dict
          [("label", .str kv.1), ("precision", precOf kv.2),
           ("value", valOf kv.2)])) :=
    mapE_map_ok _ _ _ ds hsteps
  have hparts : NO2Index.fromDictParts (.dict entries)
      = .ok (rt, ⟨Option.none, lon, lat, Option.none, Option.none⟩,
             ds.map (fun kv => PyVal.dict
               [("label", .str kv.1), ("precision", precOf kv.2),
                ("value", valOf kv.2)])) := by
    rw [NO2Index.fromDictParts]
    simp only [pySubscriptStr, ht, hts, hloc, hlon, hlat, pyFloat, hdata,
      pyIter, hmap]
  have hmain : NO2Index.from_dict now (.dict entries)
      = .ok ⟨rt, ⟨Option.none, lon, lat, Option.none, Option.none⟩,
             Option.none,
             ds.map (fun kv => PyVal.dict
               [("label", .str kv.1), ("precision", precOf kv.2),
                ("value", valOf kv.2)]),
             now⟩ := by
    rw [NO2Index.from_dict, if_neg (by simp [PyVal.isNone])]
    simp only [hparts]
    rw [init_list_eq, if_neg (not_lt.mpr hrt), if_neg (not_lt.mpr hnow)]
  refine ⟨hmain, ?_⟩
  intro obj hobj
  rw [hmain] at hobj
  injection hobj with h2
  rw [← h2]
  exact ⟨rfl, rfl, by simp [NO2Index.get_no2_samples]⟩

/-- Witness for C2 (amended): the example input with `data` as a
single-key mapping parses to an object with `get_lon() = 9.2359`
(`mkRat 92359 10000`), interval None and exactly one sample. -/
theorem no2index_from_dict_wellformed_witness :
    NO2Index.from_dict 1475283600 exampleMapData = .ok exampleParsed
    ∧ exampleParsed.get_location.get_lon = mkRat 92359 10000
    ∧ exampleParsed.get_interval = Option.none
    ∧ exampleParsed.get_no2_samples.length = 1 := by
  have h := no2index_from_dict_wellformed 1475283600 1475327221
    [("time", .str "2016-10-01T13:07:01Z"),
     ("location", .dict [("latitude", .num 0),
                         ("longitude", .num (mkRat 92359 10000))]),
     ("data", .dict [("level0", .dict
        [("precision", .num (mkRat (-2499999993688107) 5000000000000000000000)),
         ("value", .num (mkRat 8609262636127823 100000000000000000000000))])])]
    [("latitude", .num 0), ("longitude", .num (mkRat 92359 10000))]
    [("level0", .dict
        [("precision", .num (mkRat (-2499999993688107) 5000000000000000000000)),
         ("value", .num (mkRat 8609262636127823 100000000000000000000000))])]
    "2016-10-01T13:07:01Z" (mkRat 92359 10000) 0
    rfl rfl (by decide) (by decide) rfl rfl rfl rfl (by decide)
    (by
      intro kv hkv
      rw [List.mem_singleton.mp hkv]
      exact ⟨_, rfl, rfl, rfl⟩)
  exact ⟨h.1, (h.2 exampleParsed h.1).1, (h.2 exampleParsed h.1).2.1,
    (h.2 exampleParsed h.1).2.2⟩

theorem length_padDigits (k n : Nat) : (padDigits k n).length = k := by
  simp [padDigits]

theorem digitChar_isDigit (m : Nat) (h : m < 10) :
    (Nat.digitChar m).isDigit = true := by
  interval_cases m <;> decide

theorem mem_padDigits_isDigit (k n : Nat) (c : Char) (h : c ∈ padDigits k n) :
    c.isDigit = true := by
  rw [padDigits] at h
  rcases List.mem_map.mp h with ⟨i, _, hc⟩
  rw [← hc]
  exact digitChar_isDigit _ (Nat.mod_lt _ (by norm_num))

theorem isDigit_ne_dot (c : Char) (h : c.isDigit = true) : c ≠ '.' := by
  intro he
  rw [he] at h
  exact absurd h (by decide)

theorem isDigit_ne_e (c : Char) (h : c.isDigit = true) : c ≠ 'e' := by
  intro he
  rw [he] at h
  exact absurd h (by decide)

theorem dropWhile_append_all (p : Char → Bool) (xs ys : List Char)
    (h : ∀ c ∈ xs, p c = true) :
    (xs ++ ys).dropWhile p = ys.dropWhile p := by
  induction xs with
  | nil => rfl
  | cons c t ih =>
    rw [List.cons_append, List.dropWhile_cons,
      if_pos (h c (List.mem_cons_self c t))]
    exact ih (fun z hz => h z (List.mem_cons_of_mem c hz))

theorem takeWhile_append_stop (p : Char → Bool) (xs : List Char) (y : Char)
    (ys : List Char) (hall : ∀ c ∈ xs, p c = true) (hy : p y = false) :
    (xs ++ y :: ys).takeWhile p = xs := by
  induction xs with
  | nil => simp [List.takeWhile_cons, hy]
  | cons c t ih =>
    rw [List.cons_append, List.takeWhile_cons,
      if_pos (hall c (List.mem_cons_self c t))]
    rw [ih (fun z hz => hall z (List.mem_cons_of_mem c hz))]

theorem any_append_elem (p : Char → Bool) (xs ys : List Char) (y : Char)
    (hy : p y = true) : (xs ++ y :: ys).any p = true := by
  simp [List.any_append, List.any_cons, hy]

theorem fracDigitsOfSci_shape (signL intL fracL tailL : List Char)
    (hsign : ∀ c ∈ signL, c ≠ '.') (hint : ∀ c ∈ intL, c ≠ '.')
    (hfrac : ∀ c ∈ fracL, c ≠ 'e') :
    fracDigitsOfSci (String.mk (signL ++ (intL ++ '.' :: (fracL ++ 'e' :: tailL))))
      = some fracL := by
  have hall : ∀ c ∈ signL ++ intL, (decide (c ≠ '.')) = true := by
    intro c hc
    rcases List.mem_append.mp hc with h | h
    · exact decide_eq_true (hsign c h)
    · exact decide_eq_true (hint c h)
  have hdrop : (String.mk (signL ++ (intL ++ '.' :: (fracL ++ 'e' :: tailL)))).toList.dropWhile
      (fun c => decide (c ≠ '.')) = '.' :: (fracL ++ 'e' :: tailL) := by
    rw [toList_mk, ← List.append_assoc, dropWhile_append_all _ _ _ hall,
      List.dropWhile_cons]
    simp
  rw [fracDigitsOfSci]
  simp only [hdrop]
  rw [any_append_elem _ _ _ 'e' (by simp), if_pos rfl,
    takeWhile_append_stop _ _ _ _
      (fun c hc => decide_eq_true (hfrac c hc)) (by simp)]

theorem formatE_sci (prec : Nat) (q : Rat) :
    ∃ ds, fracDigitsOfSci (formatE prec q) = some ds ∧ ds.length = prec ∧
      ∀ c ∈ ds, c.isDigit = true := by
  rw [formatE]
  by_cases h0 : q = 0
  · rw [if_pos h0]
    refine ⟨padDigits prec 0, ?_, length_padDigits _ _,
      fun c hc => mem_padDigits_isDigit _ _ c hc⟩
    exact fracDigitsOfSci_shape [] ['0'] (padDigits prec 0) (expStr 0)
      (by intro c hc; simp at hc)
      (by intro c hc; rw [List.mem_singleton.mp hc]; decide)
      (fun c hc => isDigit_ne_e c (mem_padDigits_isDigit _ _ c hc))
  · rw [if_neg h0]
    refine ⟨padDigits prec ((formatEParts prec q).1 % 10 ^ prec), ?_,
      length_padDigits _ _, fun c hc => mem_padDigits_isDigit _ _ c hc⟩
    by_cases hs : q.num < 0
    · rw [if_pos hs]
      exact fracDigitsOfSci_shape ['-'] (natStr _) _ _
        (by intro c hc; rw [List.mem_singleton.mp hc]; decide)
        (fun c hc => isDigit_ne_dot c (mem_padDigits_isDigit _ _ c hc))
        (fun c hc => isDigit_ne_e c (mem_padDigits_isDigit _ _ c hc))
    · rw [if_neg hs]
      exact fracDigitsOfSci_shape [] (natStr _) _ _
        (by intro c hc; simp at hc)
        (fun c hc => isDigit_ne_dot c (mem_padDigits_isDigit _ _ c hc))
        (fun c hc => isDigit_ne_e c (mem_padDigits_isDigit _ _ c hc))

/-- C7: in the DOM that `to_XML` serializes (the `_to_DOM` output), the
text of every `value` and every `precision` child of every element of the
`no2_samples` container is in base-10 scientific notation with exactly 12
digits after the decimal point: the characters strictly between the `'.'`
and the `'e'` are 12 decimal digits (the `'{:.12e}'` format of the
source). -/
theorem no2index_toXML_sci12 (idx : NO2Index) (res : XMLNode × NO2Index)
    (hdom : idx.toDOM = .ok res) :
    ∀ sn ∈ res.1.children, sn.tag = "no2_samples" →
      ∀ c ∈ sn.children, ∀ vc ∈ c.children,
        (vc.tag = "value" ∨ vc.tag = "precision") →
        ∃ t ds, vc.text = some t ∧ fracDigitsOfSci t = some ds ∧
          ds.length = 12 ∧ ∀ ch ∈ ds, ch.isDigit = true := by
  rw [NO2Index.toDOM] at hdom
  cases hm : mapE processSample idx.no2_samples with
  | error e => simp [hm] at hdom
  | ok pairs =>
    simp only [hm] at hdom
    injection hdom with h2
    rw [← h2]
    intro sn hsn htag
    simp only [XMLNode.children, List.mem_cons, List.mem_singleton] at hsn
    rcases hsn with h | h | h | h | h
    · rw [h] at htag
      simp [XMLNode.tag] at htag
    · rw [h] at htag
      simp [XMLNode.tag] at htag
    · rw [h] at htag
      simp [XMLNode.tag] at htag
    · rw [h]
      intro c hc vc hvc hor
      simp only [XMLNode.children] at hc
      rcases List.mem_map.mp hc with ⟨pair, hpair, hcp⟩
      obtain ⟨x, hx, hpx⟩ := mapE_ok_mem _ _ _ hm pair hpair
      obtain ⟨d, s', _, hfs, hnode⟩ := processSample_ok_node x pair hpx
      rw [← hcp, hnode] at hvc
      simp only [create_DOM_node_from_dict, XMLNode.children] at hvc
      rcases List.mem_map.mp hvc with ⟨kv, hkv, hvceq⟩
      have htagv : kv.1 = "value" ∨ kv.1 = "precision" := by
        rw [← hvceq] at hor
        simpa [XMLNode.tag] using hor
      obtain ⟨qq, hb⟩ := formatSampleDict_ok_entries d s' hfs kv.1 kv.2 hkv htagv
      obtain ⟨ds, hds, hlen, hdig⟩ := formatE_sci 12 qq
      refine ⟨formatE 12 qq, ds, ?_, hds, hlen, hdig⟩
      rw [← hvceq]
      simp only [XMLNode.text, hb, pyStr]
    · rcases h with h | h
      · rw [h] at htag
        simp [Location.toDOM, XMLNode.tag] at htag
      · simp at h

/-- Witness for C7: in the DOM of a concrete serialization, the formatted
`value` element's text carries exactly 12 fraction digits. -/
theorem no2index_toXML_sci12_witness :
    ∃ t ds, vcW.text = some t ∧ fracDigitsOfSci t = some ds ∧
      ds.length = 12 ∧ ∀ ch ∈ ds, ch.isDigit = true :=
  no2index_toXML_sci12 no2_w resW rfl snW
    (List.Mem.tail _ (List.Mem.tail _ (List.Mem.tail _ (List.Mem.head _))))
    rfl cW (List.Mem.head _) vcW
    (List.Mem.tail _ (List.Mem.tail _ (List.Mem.head _)))
    (Or.inl rfl)
